import Mathlib

/-!
Shallow embedding of the `api` Django app of the unified messaging server
(`api/models.py`, `api/views.py`, `api/urls.py`).

The relational store is modelled as explicit state (`Store`): two tables with
auto-increment primary keys.  Handlers become functions from a store (plus the
parsed request) to a response together with the store after the request.
Django's `transaction.atomic` semantics — a caught `IntegrityError` inside the
block marks the transaction for rollback, so nothing written inside the block
survives — is embedded by returning the pre-transaction store on the failure
branch.  The unreliable provider of `OutgoingMessageView._mock_provider_post_request`
is modelled by an explicit outcome argument (its `response_status` parameter /
the patched status in the repository's tests).
-/

namespace Api

/-- Modelled from the spec: `api/constants.py` is not under `src/` (only its
importers are).  Spec §6 fixes the three channel kinds `email | sms | mms`,
and the repository's tests compare these constants to the literals
`"email"`, `"sms"`, `"mms"`. -/
def EMAIL : String := "email"

/-- Modelled from the spec: see `EMAIL`. -/
def MMS : String := "mms"

/-- Modelled from the spec: see `EMAIL`. -/
def SMS : String := "sms"

/-- A naive (timezone-free) point in time, as Django stores `models.DateTimeField`
values here (the tests expect `datetime(2024, 11, 1, 14, 0)` and an `isoformat`
without offset). -/
structure DateTime where
  year : Nat
  month : Nat
  day : Nat
  hour : Nat
  minute : Nat
  second : Nat
deriving DecidableEq, Repr

/-- Mixed-radix collapse of a `DateTime` into one natural number; two valid
datetimes compare chronologically exactly when their keys compare. -/
def DateTime.key (d : DateTime) : Nat :=
  ((((d.year * 100 + d.month) * 100 + d.day) * 100 + d.hour) * 100 + d.minute) * 100 + d.second

/-- Chronological strict order on `DateTime`. -/
def DateTime.lt (d e : DateTime) : Prop := d.key < e.key

/-- The decimal digit character for `n % 10`-style arguments (callers only pass
values below 10). -/
def digitChar (n : Nat) : Char :=
  match n with
  | 0 => '0'
  | 1 => '1'
  | 2 => '2'
  | 3 => '3'
  | 4 => '4'
  | 5 => '5'
  | 6 => '6'
  | 7 => '7'
  | 8 => '8'
  | _ => '9'

/-- Two-digit zero-padded rendering, as Python's `datetime.isoformat` renders
month, day, hour, minute and second. -/
def pad2 (n : Nat) : List Char :=
  [digitChar (n / 10 % 10), digitChar (n % 10)]

/-- Four-digit zero-padded rendering of the year. -/
def pad4 (n : Nat) : List Char :=
  [digitChar (n / 1000 % 10), digitChar (n / 100 % 10), digitChar (n / 10 % 10), digitChar (n % 10)]

/-- `datetime.isoformat()` for a naive datetime with zero microseconds:
`YYYY-MM-DDTHH:MM:SS`, no timezone designator. -/
def DateTime.isoformat (d : DateTime) : String :=
  String.mk (pad4 d.year ++ '-' :: pad2 d.month ++ '-' :: pad2 d.day ++
    'T' :: pad2 d.hour ++ ':' :: pad2 d.minute ++ ':' :: pad2 d.second)

/-- Row of the `Conversation` table (`api/models.py`), with its auto primary key. -/
structure Conversation where
  id : Nat
  participant_a : String
  participant_b : String
deriving DecidableEq, Repr

/-- Row of the `Message` table (`api/models.py`), with its auto primary key.
`attachments` is a nullable `JSONField` (requests supply a list of URL strings
or `null`); `messaging_provider_id` is a nullable `CharField`. -/
structure Message where
  id : Nat
  conversation_id : Nat
  msg_type : String
  from_address : String
  to_address : String
  body : String
  attachments : Option (List String)
  timestamp : DateTime
  messaging_provider_id : Option String
deriving DecidableEq, Repr

/-- The relational store: both tables in insertion order plus the next
auto-increment primary key of each. -/
structure Store where
  conversations : List Conversation
  messages : List Message
  nextConversationId : Nat
  nextMessageId : Nat
deriving DecidableEq, Repr

/-- The parsed JSON request body; `from_address` and `to_address` model the
`from` and `to` JSON keys.  `simplejson`'s `dict.get` yields `None` for an
absent key, hence every field is optional.  The `timestamp` arrives already
parsed to a datetime (Django coerces the ISO string when saving). -/
structure RequestBody where
  type : Option String
  from_address : Option String
  to_address : Option String
  body : Option String
  attachments : Option (List String)
  timestamp : Option DateTime
  messaging_provider_id : Option String
  xillio_id : Option String
deriving DecidableEq, Repr

/-- The dict built by `BaseMessageView._get_request_data`. -/
structure MessageVals where
  msg_type : String
  from_address : Option String
  to_address : Option String
  body : Option String
  attachments : Option (List String)
  timestamp : Option DateTime
deriving DecidableEq, Repr

/-- `BaseMessageView._get_request_data(request, msg_type)`: the `msg_type` key is
`post_data.get('type', msg_type)` — the body's `type` when present, else the
URL path's type segment — and the rest is copied from the body. -/
def BaseMessageView.get_request_data (b : RequestBody) (msg_type : String) : MessageVals :=
  { msg_type := b.type.getD msg_type
    from_address := b.from_address
    to_address := b.to_address
    body := b.body
    attachments := b.attachments
    timestamp := b.timestamp }

/-- Python's `<` on two code-point sequences (lexicographic), as `sorted` uses it. -/
def strLt : List Char → List Char → Bool
  | [], [] => false
  | [], _ :: _ => true
  | _ :: _, [] => false
  | a :: as, b :: bs => if a < b then true else if b < a then false else strLt as bs

/-- Python's `<` on strings: lexicographic comparison of code points. -/
def pyLt (a b : String) : Bool := strLt a.data b.data

/-- `Conversation.get_or_create_conversation(from_address, to_address)`:
`sorted([from_address, to_address])` puts the lexicographically smaller
identifier first (for a two-element list, `sorted` swaps exactly when the
second compares below the first); the sorted pair keys a `get_or_create`. -/
def Conversation.get_or_create_conversation (s : Store) (from_address to_address : String) :
    Conversation × Store :=
  let pa := if pyLt to_address from_address then to_address else from_address
  let pb := if pyLt to_address from_address then from_address else to_address
  match s.conversations.find? (fun c => c.participant_a == pa && c.participant_b == pb) with
  | some c => (c, s)
  | none =>
    let c : Conversation := { id := s.nextConversationId, participant_a := pa, participant_b := pb }
    (c, { s with
            conversations := s.conversations ++ [c]
            nextConversationId := s.nextConversationId + 1 })

/-- `Message.objects.create(conversation=..., **message_obj_vals)`.  The columns
`from_address`, `to_address`, `body` and `timestamp` are NOT NULL, so saving a
`None` into any of them raises `IntegrityError` — the `none` result.
`attachments` and `messaging_provider_id` are nullable. -/
def Message.objects_create (s : Store) (conversation : Conversation) (v : MessageVals)
    (messaging_provider_id : Option String) : Option (Message × Store) :=
  match v.from_address, v.to_address, v.body, v.timestamp with
  | some f, some t, some b, some ts =>
    let m : Message :=
      { id := s.nextMessageId
        conversation_id := conversation.id
        msg_type := v.msg_type
        from_address := f
        to_address := t
        body := b
        attachments := v.attachments
        timestamp := ts
        messaging_provider_id := messaging_provider_id }
    some (m, { s with messages := s.messages ++ [m], nextMessageId := s.nextMessageId + 1 })
  | _, _, _, _ => none

/-- Outcome of the shared `with transaction.atomic():` block of both message
views: success with the created message and the committed store, or a caught
`IntegrityError` (everything written inside the block rolls back), or an
uncaught `TypeError` from `sorted([None, ...])` when `from`/`to` is absent
(the transaction likewise commits nothing). -/
inductive IngestOutcome where
  | ok (m : Message) (s : Store)
  | invalid
  | crash
deriving DecidableEq, Repr

/-- The ingestion transaction both views run inside `transaction.atomic()`:
resolve-or-create the conversation, then insert the message. -/
def ingest (s : Store) (v : MessageVals) (messaging_provider_id : Option String) :
    IngestOutcome :=
  match v.from_address, v.to_address with
  | some f, some t =>
    let cs := Conversation.get_or_create_conversation s f t
    match Message.objects_create cs.2 cs.1 v messaging_provider_id with
    | some ms => IngestOutcome.ok ms.1 ms.2
    | none => IngestOutcome.invalid
  | _, _ => IngestOutcome.crash

/-- Outcome of `OutgoingMessageView._mock_provider_post_request`: a response
status code, or a raised `requests.exceptions.RequestException`. -/
inductive ProviderOutcome where
  | status (code : Nat)
  | exception (msg : String)
deriving DecidableEq, Repr

/-- An HTTP response of the message endpoints: `JsonResponse({'message_id': id})`,
`JsonResponse({'error': msg})`, or an uncaught exception (framework error page). -/
inductive ApiResponse where
  | message_id (status : Nat) (id : Nat)
  | error (status : Nat) (msg : String)
  | unhandled_exception
deriving DecidableEq, Repr

/-- `OutgoingMessageView.post(request, msg_type)`: run the ingestion transaction
(no `messaging_provider_id` key in `message_obj_vals`), then contact the
provider and map its outcome onto the response. -/
def OutgoingMessageView.post (s : Store) (msg_type : String) (b : RequestBody)
    (provider : ProviderOutcome) : ApiResponse × Store :=
  let v := BaseMessageView.get_request_data b msg_type
  match ingest s v none with
  | IngestOutcome.crash => (ApiResponse.unhandled_exception, s)
  | IngestOutcome.invalid => (ApiResponse.error 400 "Invalid message", s)
  | IngestOutcome.ok m s2 =>
    match provider with
    | ProviderOutcome.exception e =>
      (ApiResponse.error 502 ("Failed to reach provider: " ++ e), s2)
    | ProviderOutcome.status code =>
      if code = 429 then
        (ApiResponse.error 429 "Rate limited by provider. Please retry later.", s2)
      else if code = 500 then
        (ApiResponse.error 500 "Provider service unavailable.", s2)
      else if code = 200 then
        (ApiResponse.message_id 201 m.id, s2)
      else
        (ApiResponse.error code "Unknown error ocurred.", s2)

/-- `IncomingMessageWebhookView.post(request, msg_type)`: extract the provider
message id from `messaging_provider_id` when `msg_type in (MMS, SMS)`, else
(email case) from `xillio_id`; run the ingestion transaction; no provider call. -/
def IncomingMessageWebhookView.post (s : Store) (msg_type : String) (b : RequestBody) :
    ApiResponse × Store :=
  let v := BaseMessageView.get_request_data b msg_type
  let pid := if msg_type = MMS ∨ msg_type = SMS then b.messaging_provider_id else b.xillio_id
  match ingest s v pid with
  | IngestOutcome.crash => (ApiResponse.unhandled_exception, s)
  | IngestOutcome.invalid => (ApiResponse.error 400 "Invalid message", s)
  | IngestOutcome.ok m s2 => (ApiResponse.message_id 201 m.id, s2)

/-- The reverse foreign-key collection `conversation.messages` in table order. -/
def Conversation.messages (s : Store) (c : Conversation) : List Message :=
  s.messages.filter (fun m => m.conversation_id == c.id)

/-- Non-strict chronological comparison used to model `order_by('timestamp')`. -/
def msgLE (a b : Message) : Prop := a.timestamp.key ≤ b.timestamp.key

instance : DecidableRel msgLE := fun a b => Nat.decLe a.timestamp.key b.timestamp.key

instance : IsTotal Message msgLE := ⟨fun a b => Nat.le_total a.timestamp.key b.timestamp.key⟩

instance : IsTrans Message msgLE := ⟨fun _ _ _ hab hbc => Nat.le_trans hab hbc⟩

/-- `self.messages.order_by('timestamp')` (a stable sort of the table order). -/
def Conversation.messages_by_timestamp (s : Store) (c : Conversation) : List Message :=
  List.insertionSort msgLE (Conversation.messages s c)

/-- The `MessageView` JSON shape produced by `Message.serialize`. -/
structure MessageView where
  id : Nat
  msg_type : String
  from_address : String
  to_address : String
  body : String
  attachments : Option (List String)
  timestamp : String
deriving DecidableEq, Repr

/-- `Message.serialize(self)`. -/
def Message.serialize (m : Message) : MessageView :=
  { id := m.id
    msg_type := m.msg_type
    from_address := m.from_address
    to_address := m.to_address
    body := m.body
    attachments := m.attachments
    timestamp := m.timestamp.isoformat }

/-- The JSON shape produced by `Conversation.serialize`. -/
structure ConversationView where
  participant_a : String
  participant_b : String
  messages : List MessageView
deriving DecidableEq, Repr

/-- `Conversation.serialize_messages(self)`. -/
def Conversation.serialize_messages (s : Store) (c : Conversation) : List MessageView :=
  (Conversation.messages_by_timestamp s c).map Message.serialize

/-- `Conversation.serialize(self)`. -/
def Conversation.serialize (s : Store) (c : Conversation) : ConversationView :=
  { participant_a := c.participant_a
    participant_b := c.participant_b
    messages := Conversation.serialize_messages s c }

/-- `ConversationListView.get`: serialize every stored conversation. -/
def ConversationListView.get (s : Store) : List ConversationView :=
  s.conversations.map (fun c => Conversation.serialize s c)

/-- Response of `ConversationDetailView.get`: the serialized message list, or
the `Http404` raised on `Conversation.DoesNotExist`. -/
inductive DetailResponse where
  | ok (messages : List MessageView)
  | notFound
deriving DecidableEq, Repr

/-- `ConversationDetailView.get(request, cid)`: look the conversation up by
primary key; `404` when absent, else its serialized messages (paired with the
store after the request, which a read leaves untouched). -/
def ConversationDetailView.get (s : Store) (cid : Nat) : DetailResponse × Store :=
  match s.conversations.find? (fun c => c.id == cid) with
  | some c => (DetailResponse.ok (Conversation.serialize_messages s c), s)
  | none => (DetailResponse.notFound, s)

/-! ### Helper lemmas on the lexicographic order -/

theorem strLt_asymm : ∀ as bs : List Char, strLt as bs = true → strLt bs as = false
  | [], [], h => by simp [strLt] at h
  | [], _ :: _, _ => rfl
  | _ :: _, [], h => by simp [strLt] at h
  | a :: as, b :: bs, h => by
    by_cases hab : a < b
    · have hba : ¬b < a := lt_asymm hab
      simp [strLt, hab, hba]
    · by_cases hba : b < a
      · simp [strLt, hab, hba] at h
      · have hEq : a = b := le_antisymm (not_lt.mp hba) (not_lt.mp hab)
        subst hEq
        simp only [strLt, lt_irrefl, if_false] at h ⊢
        exact strLt_asymm as bs h

theorem strLt_conn : ∀ as bs : List Char, strLt as bs = false → strLt bs as = false → as = bs
  | [], [], _, _ => rfl
  | [], _ :: _, h, _ => by simp [strLt] at h
  | _ :: _, [], _, h => by simp [strLt] at h
  | a :: as, b :: bs, h, h' => by
    by_cases hab : a < b
    · simp [strLt, hab] at h
    · by_cases hba : b < a
      · simp [strLt, hba] at h'
      · have hEq : a = b := le_antisymm (not_lt.mp hba) (not_lt.mp hab)
        subst hEq
        simp only [strLt, lt_irrefl, if_false] at h h'
        rw [strLt_conn as bs h h']

theorem pyLt_asymm (x y : String) (h : pyLt x y = true) : pyLt y x = false :=
  strLt_asymm x.data y.data h

theorem pyLt_conn (x y : String) (h : pyLt x y = false) (h' : pyLt y x = false) : x = y :=
  String.toList_inj.mp (strLt_conn x.data y.data h h')

/-! ### Helper lemmas about `get_or_create_conversation` -/

theorem sorted_pair_pa_comm (x y : String) :
    (if pyLt y x then y else x) = (if pyLt x y then x else y) := by
  by_cases h1 : pyLt y x = true
  · have h2 : pyLt x y = false := pyLt_asymm y x h1
    simp [h1, h2]
  · rw [Bool.not_eq_true] at h1
    by_cases h2 : pyLt x y = true
    · simp [h1, h2]
    · rw [Bool.not_eq_true] at h2
      have hEq : y = x := pyLt_conn y x h1 h2
      simp [hEq]

theorem sorted_pair_pb_comm (x y : String) :
    (if pyLt y x then x else y) = (if pyLt x y then y else x) := by
  by_cases h1 : pyLt y x = true
  · have h2 : pyLt x y = false := pyLt_asymm y x h1
    simp [h1, h2]
  · rw [Bool.not_eq_true] at h1
    by_cases h2 : pyLt x y = true
    · simp [h1, h2]
    · rw [Bool.not_eq_true] at h2
      have hEq : y = x := pyLt_conn y x h1 h2
      simp [hEq]

theorem sorted_pair_not_lt (x y : String) :
    pyLt (if pyLt y x then x else y) (if pyLt y x then y else x) = false := by
  by_cases h1 : pyLt y x = true
  · simp [h1, pyLt_asymm y x h1]
  · rw [Bool.not_eq_true] at h1
    simp [h1]

theorem goc_comm (s : Store) (x y : String) :
    Conversation.get_or_create_conversation s x y = Conversation.get_or_create_conversation s y x := by
  simp only [Conversation.get_or_create_conversation]
  rw [sorted_pair_pa_comm y x, sorted_pair_pb_comm y x]

theorem goc_participants (s : Store) (x y : String) :
    (Conversation.get_or_create_conversation s x y).1.participant_a = (if pyLt y x then y else x) ∧
    (Conversation.get_or_create_conversation s x y).1.participant_b = (if pyLt y x then x else y) := by
  simp only [Conversation.get_or_create_conversation]
  cases hf : s.conversations.find?
      (fun c => c.participant_a == (if pyLt y x then y else x) &&
        c.participant_b == (if pyLt y x then x else y)) with
  | none => simp
  | some c =>
    have hp := List.find?_some hf
    simp only [Bool.and_eq_true, beq_iff_eq] at hp
    simp [hp.1, hp.2]

theorem goc_store (s : Store) (x y : String) :
    (Conversation.get_or_create_conversation s x y).2.conversations = s.conversations ∨
    (Conversation.get_or_create_conversation s x y).2.conversations =
      s.conversations ++ [(Conversation.get_or_create_conversation s x y).1] := by
  simp only [Conversation.get_or_create_conversation]
  cases hf : s.conversations.find?
      (fun c => c.participant_a == (if pyLt y x then y else x) &&
        c.participant_b == (if pyLt y x then x else y)) with
  | none => simp
  | some c => simp

theorem goc_mem (s : Store) (x y : String) :
    (Conversation.get_or_create_conversation s x y).1 ∈
      (Conversation.get_or_create_conversation s x y).2.conversations := by
  simp only [Conversation.get_or_create_conversation]
  cases hf : s.conversations.find?
      (fun c => c.participant_a == (if pyLt y x then y else x) &&
        c.participant_b == (if pyLt y x then x else y)) with
  | none => simp
  | some c => simpa using List.mem_of_find?_eq_some hf

theorem goc_idem (s : Store) (x y : String) :
    Conversation.get_or_create_conversation (Conversation.get_or_create_conversation s x y).2 x y =
      ((Conversation.get_or_create_conversation s x y).1,
        (Conversation.get_or_create_conversation s x y).2) := by
  simp only [Conversation.get_or_create_conversation]
  cases hf : s.conversations.find?
      (fun c => c.participant_a == (if pyLt y x then y else x) &&
        c.participant_b == (if pyLt y x then x else y)) with
  | none =>
    simp only [hf]
    rw [List.find?_append, hf]
    simp
  | some c => simp [hf]

/-- Claim C1: `resolveConversation` is agnostic to argument order — for any two
addresses the call with `(x, y)` and with `(y, x)` produces the same conversation
and the same store; the resolved conversation's participants are exactly the
unordered pair with `participant_a` not lexicographically above `participant_b`;
a single call appends at most one row; and repeating the call returns the very
same conversation without changing the store, so any number of calls for the
same unordered pair creates at most one `Conversation` row. -/
theorem get_or_create_conversation_unordered_pair (s : Store) (x y : String) :
    Conversation.get_or_create_conversation s x y = Conversation.get_or_create_conversation s y x ∧
    (((Conversation.get_or_create_conversation s x y).1.participant_a = x ∧
        (Conversation.get_or_create_conversation s x y).1.participant_b = y) ∨
      ((Conversation.get_or_create_conversation s x y).1.participant_a = y ∧
        (Conversation.get_or_create_conversation s x y).1.participant_b = x)) ∧
    pyLt (Conversation.get_or_create_conversation s x y).1.participant_b
      (Conversation.get_or_create_conversation s x y).1.participant_a = false ∧
    ((Conversation.get_or_create_conversation s x y).2.conversations = s.conversations ∨
      (Conversation.get_or_create_conversation s x y).2.conversations =
        s.conversations ++ [(Conversation.get_or_create_conversation s x y).1]) ∧
    Conversation.get_or_create_conversation (Conversation.get_or_create_conversation s x y).2 x y =
      ((Conversation.get_or_create_conversation s x y).1,
        (Conversation.get_or_create_conversation s x y).2) := by
  obtain ⟨hpa, hpb⟩ := goc_participants s x y
  refine ⟨goc_comm s x y, ?_, ?_, goc_store s x y, goc_idem s x y⟩
  · rw [hpa, hpb]
    by_cases h1 : pyLt y x = true
    · right
      simp [h1]
    · left
      rw [Bool.not_eq_true] at h1
      simp [h1]
  · rw [hpa, hpb]
    exact sorted_pair_not_lt x y

/-! ### Helper lemmas about the ingestion transaction -/

theorem ingest_invalid_of_missing (s : Store) (v : MessageVals) (pid : Option String)
    (f t : String) (hf : v.from_address = some f) (ht : v.to_address = some t)
    (hfail : v.body = none ∨ v.timestamp = none) :
    ingest s v pid = IngestOutcome.invalid := by
  obtain ⟨mt, vf, vt, vb, va, vts⟩ := v
  simp only at hf ht hfail
  subst hf
  subst ht
  rcases hfail with hb | hts
  · subst hb
    cases vts <;> simp [ingest, Message.objects_create]
  · subst hts
    cases vb <;> simp [ingest, Message.objects_create]

theorem ingest_ok_facts (s : Store) (v : MessageVals) (pid : Option String) (m : Message)
    (s2 : Store) (h : ingest s v pid = IngestOutcome.ok m s2) :
    m ∈ s2.messages ∧ (∃ c ∈ s2.conversations, c.id = m.conversation_id) ∧
    m.messaging_provider_id = pid ∧ m.msg_type = v.msg_type ∧
    m.attachments = v.attachments ∧ v.body = some m.body ∧ v.timestamp = some m.timestamp := by
  obtain ⟨mt, vf, vt, vb, va, vts⟩ := v
  cases vf with
  | none => simp [ingest] at h
  | some f =>
    cases vt with
    | none => simp [ingest] at h
    | some t =>
      cases vb with
      | none => simp [ingest, Message.objects_create] at h
      | some bo =>
        cases vts with
        | none => simp [ingest, Message.objects_create] at h
        | some ts =>
          simp only [ingest, Message.objects_create] at h
          cases h
          refine ⟨by simp, ⟨(Conversation.get_or_create_conversation s f t).1,
            goc_mem s f t, rfl⟩, rfl, rfl, rfl, rfl, rfl⟩

theorem outgoing_post_store (s : Store) (u : String) (b : RequestBody) (m : Message) (s2 : Store)
    (hOk : ingest s (BaseMessageView.get_request_data b u) none = IngestOutcome.ok m s2)
    (prov : ProviderOutcome) : (OutgoingMessageView.post s u b prov).2 = s2 := by
  cases prov with
  | exception e => simp [OutgoingMessageView.post, hOk]
  | status code =>
    simp only [OutgoingMessageView.post, hOk]
    split_ifs <;> rfl

/-- Claim C2: when the message insertion step of the ingestion transaction fails
(the `IntegrityError` raised on saving a `None` into the NOT NULL `body` or
`timestamp` column) after the conversation has been resolved or created, both
the outbound and the webhook path return exactly the single
`400 {"error": "Invalid message"}` response and leave the store exactly as it
was — the conversation row created inside the atomic block is rolled back and
no partial state is visible. -/
theorem ingest_failure_rolls_back (s : Store) (u : String) (b : RequestBody) (f t : String)
    (prov : ProviderOutcome) (hf : b.from_address = some f) (ht : b.to_address = some t)
    (hfail : b.body = none ∨ b.timestamp = none) :
    OutgoingMessageView.post s u b prov = (ApiResponse.error 400 "Invalid message", s) ∧
    IncomingMessageWebhookView.post s u b = (ApiResponse.error 400 "Invalid message", s) := by
  have hinv : ∀ pid, ingest s (BaseMessageView.get_request_data b u) pid =
      IngestOutcome.invalid := fun pid =>
    ingest_invalid_of_missing s _ pid f t hf ht hfail
  constructor
  · cases prov <;> simp [OutgoingMessageView.post, hinv]
  · simp [IncomingMessageWebhookView.post, hinv]

/-- An initially empty store. -/
def exStore : Store :=
  { conversations := [], messages := [], nextConversationId := 1, nextMessageId := 1 }

/-- A well-formed outbound request body. -/
def exBody : RequestBody :=
  { type := some "sms", from_address := some "a", to_address := some "b", body := some "hi",
    attachments := some ["u1", "u2"], timestamp := some ⟨2024, 11, 1, 14, 0, 0⟩,
    messaging_provider_id := some "m1", xillio_id := some "x1" }

/-- A request body whose `body` key is absent, so message insertion fails. -/
def exNoBody : RequestBody :=
  { type := some "sms", from_address := some "a", to_address := some "b", body := none,
    attachments := none, timestamp := some ⟨2024, 11, 1, 14, 0, 0⟩,
    messaging_provider_id := some "m1", xillio_id := some "x1" }

/-- The message `exBody` creates in `exStore` on the outbound path. -/
def exMsg : Message :=
  { id := 1, conversation_id := 1, msg_type := "sms", from_address := "a", to_address := "b",
    body := "hi", attachments := some ["u1", "u2"], timestamp := ⟨2024, 11, 1, 14, 0, 0⟩,
    messaging_provider_id := none }

/-- The store after ingesting `exBody` into `exStore` on the outbound path. -/
def exStore2 : Store :=
  { conversations := [{ id := 1, participant_a := "a", participant_b := "b" }],
    messages := [exMsg], nextConversationId := 2, nextMessageId := 2 }

theorem ingest_failure_rolls_back_witness :
    OutgoingMessageView.post exStore "sms" exNoBody (ProviderOutcome.status 200) =
      (ApiResponse.error 400 "Invalid message", exStore) ∧
    IncomingMessageWebhookView.post exStore "sms" exNoBody =
      (ApiResponse.error 400 "Invalid message", exStore) :=
  ingest_failure_rolls_back exStore "sms" exNoBody "a" "b" (ProviderOutcome.status 200)
    rfl rfl (Or.inl rfl)

/-- Claim C3: once the outbound ingestion transaction has committed (which
happens before the provider is contacted), the store after the request equals
the committed store for every provider outcome — rate limit, server error,
transport failure, success, or any other status — and that committed store
contains the message together with its conversation.  Provider failures never
remove stored data. -/
theorem message_persisted_before_provider (s : Store) (u : String) (b : RequestBody)
    (m : Message) (s2 : Store) (prov : ProviderOutcome)
    (hOk : ingest s (BaseMessageView.get_request_data b u) none = IngestOutcome.ok m s2) :
    (OutgoingMessageView.post s u b prov).2 = s2 ∧
    m ∈ s2.messages ∧ (∃ c ∈ s2.conversations, c.id = m.conversation_id) := by
  obtain ⟨h1, h2, -⟩ := ingest_ok_facts _ _ _ _ _ hOk
  exact ⟨outgoing_post_store s u b m s2 hOk prov, h1, h2⟩

theorem message_persisted_before_provider_witness :
    (OutgoingMessageView.post exStore "sms" exBody (ProviderOutcome.status 429)).2 = exStore2 ∧
    exMsg ∈ exStore2.messages ∧ (∃ c ∈ exStore2.conversations, c.id = exMsg.conversation_id) :=
  message_persisted_before_provider exStore "sms" exBody exMsg exStore2
    (ProviderOutcome.status 429) (by decide)

/-- Claim C4: after a successful outbound ingestion the provider outcome maps to
the caller's response exactly as the spec's table says: status `200` yields
`201` with the created message's id, `429` yields the rate-limit error, `500`
yields the unavailability error, a transport exception yields `502`, and any
other status is passed through with the generic error body. -/
theorem provider_outcome_response_mapping (s : Store) (u : String) (b : RequestBody)
    (m : Message) (s2 : Store)
    (hOk : ingest s (BaseMessageView.get_request_data b u) none = IngestOutcome.ok m s2) :
    OutgoingMessageView.post s u b (ProviderOutcome.status 200) =
      (ApiResponse.message_id 201 m.id, s2) ∧
    OutgoingMessageView.post s u b (ProviderOutcome.status 429) =
      (ApiResponse.error 429 "Rate limited by provider. Please retry later.", s2) ∧
    OutgoingMessageView.post s u b (ProviderOutcome.status 500) =
      (ApiResponse.error 500 "Provider service unavailable.", s2) ∧
    (∀ e, OutgoingMessageView.post s u b (ProviderOutcome.exception e) =
      (ApiResponse.error 502 ("Failed to reach provider: " ++ e), s2)) ∧
    (∀ code, code ≠ 200 → code ≠ 429 → code ≠ 500 →
      OutgoingMessageView.post s u b (ProviderOutcome.status code) =
        (ApiResponse.error code "Unknown error ocurred.", s2)) := by
  refine ⟨?_, ?_, ?_, fun e => ?_, fun code h200 h429 h500 => ?_⟩ <;>
    simp [OutgoingMessageView.post, hOk, *]

theorem provider_outcome_response_mapping_witness :
    OutgoingMessageView.post exStore "sms" exBody (ProviderOutcome.status 418) =
      (ApiResponse.error 418 "Unknown error ocurred.", exStore2) :=
  (provider_outcome_response_mapping exStore "sms" exBody exMsg exStore2 (by decide)).2.2.2.2
    418 (by decide) (by decide) (by decide)

/-- Claim C5: the outbound path runs the ingestion transaction with no
`messaging_provider_id` key, so a successfully created outbound message has a
null `messaging_provider_id`; and when the ingestion transaction fails the
caller gets `400 {"error": "Invalid message"}` with the store untouched, for
every provider outcome alike — i.e. no provider call influences the result. -/
theorem outbound_provider_id_absent (s : Store) (u : String) (b : RequestBody) :
    (∀ m s2, ingest s (BaseMessageView.get_request_data b u) none = IngestOutcome.ok m s2 →
      m.messaging_provider_id = none) ∧
    (ingest s (BaseMessageView.get_request_data b u) none = IngestOutcome.invalid →
      ∀ prov, OutgoingMessageView.post s u b prov = (ApiResponse.error 400 "Invalid message", s)) := by
  constructor
  · intro m s2 hOk
    exact (ingest_ok_facts _ _ _ _ _ hOk).2.2.1
  · intro hInv prov
    cases prov <;> simp [OutgoingMessageView.post, hInv]

theorem outbound_provider_id_absent_witness :
    exMsg.messaging_provider_id = none ∧
    OutgoingMessageView.post exStore "sms" exNoBody (ProviderOutcome.status 200) =
      (ApiResponse.error 400 "Invalid message", exStore) :=
  ⟨(outbound_provider_id_absent exStore "sms" exBody).1 exMsg exStore2 (by decide),
   (outbound_provider_id_absent exStore "sms" exNoBody).2 (by decide) (ProviderOutcome.status 200)⟩

/-- Claim C6: the webhook handler extracts the stored `messaging_provider_id`
from the request's `messaging_provider_id` field when invoked for type sms or
mms and from `xillio_id` when invoked for type email, keyed solely on the
handler's type argument (the `{type}` URL segment); success returns `201` with
the created message's id.  The webhook definition takes no provider outcome:
no external provider call occurs on this path. -/
theorem webhook_provider_id_dispatch (s : Store) (t : String) (b : RequestBody)
    (m : Message) (s2 : Store)
    (hOk : ingest s (BaseMessageView.get_request_data b t)
        (if t = MMS ∨ t = SMS then b.messaging_provider_id else b.xillio_id) =
      IngestOutcome.ok m s2) :
    IncomingMessageWebhookView.post s t b = (ApiResponse.message_id 201 m.id, s2) ∧
    ((t = SMS ∨ t = MMS) → m.messaging_provider_id = b.messaging_provider_id) ∧
    (t = EMAIL → m.messaging_provider_id = b.xillio_id) := by
  have hpid := (ingest_ok_facts _ _ _ _ _ hOk).2.2.1
  refine ⟨by simp [IncomingMessageWebhookView.post, hOk], ?_, ?_⟩
  · rintro (rfl | rfl)
    · rw [hpid]
      simp
    · rw [hpid]
      simp
  · rintro rfl
    rw [hpid]
    have hno : ¬(EMAIL = MMS ∨ EMAIL = SMS) := by decide
    simp [hno]

/-- An inbound email webhook body carrying `xillio_id`. -/
def exEmailBody : RequestBody :=
  { type := some "email", from_address := some "a", to_address := some "b", body := some "eh",
    attachments := some [], timestamp := some ⟨2024, 11, 1, 14, 0, 0⟩,
    messaging_provider_id := none, xillio_id := some "email-999" }

/-- The message `exEmailBody` creates via the email webhook in `exStore`. -/
def exEmailMsg : Message :=
  { id := 1, conversation_id := 1, msg_type := "email", from_address := "a", to_address := "b",
    body := "eh", attachments := some [], timestamp := ⟨2024, 11, 1, 14, 0, 0⟩,
    messaging_provider_id := some "email-999" }

/-- The store after the email webhook ingests `exEmailBody` into `exStore`. -/
def exEmailStore2 : Store :=
  { conversations := [{ id := 1, participant_a := "a", participant_b := "b" }],
    messages := [exEmailMsg], nextConversationId := 2, nextMessageId := 2 }

theorem webhook_provider_id_dispatch_witness :
    IncomingMessageWebhookView.post exStore "email" exEmailBody =
      (ApiResponse.message_id 201 exEmailMsg.id, exEmailStore2) ∧
    exEmailMsg.messaging_provider_id = exEmailBody.xillio_id := by
  obtain ⟨h1, -, h3⟩ :=
    webhook_provider_id_dispatch exStore "email" exEmailBody exEmailMsg exEmailStore2 (by decide)
  exact ⟨h1, h3 rfl⟩

/-- Claim C7: for a conversation whose stored messages have pairwise distinct
timestamps, `serialize_messages` (used by both the list endpoint and the
detail endpoint) presents exactly a permutation of that conversation's stored
messages arranged strictly ascending by timestamp, regardless of the order in
which the messages were inserted. -/
theorem conversation_messages_sorted_by_timestamp (s : Store) (c : Conversation)
    (hfind : s.conversations.find? (fun x => x.id == c.id) = some c)
    (hdist : (Conversation.messages s c).Pairwise
      (fun a b => a.timestamp.key ≠ b.timestamp.key)) :
    (Conversation.messages_by_timestamp s c).Perm (Conversation.messages s c) ∧
    (Conversation.messages_by_timestamp s c).Pairwise
      (fun a b => DateTime.lt a.timestamp b.timestamp) ∧
    Conversation.serialize_messages s c =
      (Conversation.messages_by_timestamp s c).map Message.serialize ∧
    (ConversationListView.get s).map ConversationView.messages =
      s.conversations.map (fun x => Conversation.serialize_messages s x) ∧
    (ConversationDetailView.get s c.id).1 =
      DetailResponse.ok (Conversation.serialize_messages s c) := by
  have hperm : (Conversation.messages_by_timestamp s c).Perm (Conversation.messages s c) :=
    List.perm_insertionSort msgLE _
  have hsorted : List.Pairwise msgLE (Conversation.messages_by_timestamp s c) :=
    List.sorted_insertionSort msgLE _
  have hne : (Conversation.messages_by_timestamp s c).Pairwise
      (fun a b => a.timestamp.key ≠ b.timestamp.key) :=
    (List.Perm.pairwise_iff (fun h => Ne.symm h) hperm).mpr hdist
  refine ⟨hperm, ?_, rfl, ?_, ?_⟩
  · exact List.Pairwise.imp₂ (fun a b hle hab => Nat.lt_of_le_of_ne hle hab) hsorted hne
  · simp [ConversationListView.get, Conversation.serialize, List.map_map, Function.comp]
  · simp [ConversationDetailView.get, hfind]

/-- A stored conversation. -/
def exConvo : Conversation := { id := 1, participant_a := "a", participant_b := "b" }

/-- A message inserted first but timestamped later. -/
def exMsgLate : Message :=
  { id := 1, conversation_id := 1, msg_type := "sms", from_address := "a", to_address := "b",
    body := "second", attachments := none, timestamp := ⟨2025, 1, 1, 0, 0, 0⟩,
    messaging_provider_id := none }

/-- A message inserted second but timestamped earlier. -/
def exMsgEarly : Message :=
  { id := 2, conversation_id := 1, msg_type := "sms", from_address := "b", to_address := "a",
    body := "first", attachments := none, timestamp := ⟨2024, 1, 1, 0, 0, 0⟩,
    messaging_provider_id := none }

/-- A store whose one conversation holds two messages in reverse timestamp order. -/
def exStoreMsgs : Store :=
  { conversations := [exConvo], messages := [exMsgLate, exMsgEarly],
    nextConversationId := 2, nextMessageId := 3 }

theorem conversation_messages_sorted_by_timestamp_witness :
    (Conversation.messages_by_timestamp exStoreMsgs exConvo).Pairwise
      (fun a b => DateTime.lt a.timestamp b.timestamp) ∧
    (ConversationDetailView.get exStoreMsgs exConvo.id).1 =
      DetailResponse.ok (Conversation.serialize_messages exStoreMsgs exConvo) := by
  obtain ⟨-, h2, -, -, h5⟩ :=
    conversation_messages_sorted_by_timestamp exStoreMsgs exConvo (by decide) (by decide)
  exact ⟨h2, h5⟩

/-! ### Helper lemmas about `isoformat` -/

/-- The characters an `isoformat` rendering may contain; note that neither an
offset sign nor the `Z` designator is among them. -/
def isoAllowedChars : List Char :=
  ['0', '1', '2', '3', '4', '5', '6', '7', '8', '9', '-', ':', 'T']

theorem digitChar_mem (n : Nat) : digitChar n ∈ isoAllowedChars := by
  rcases n with _ | _ | _ | _ | _ | _ | _ | _ | _ | n
  · decide
  · decide
  · decide
  · decide
  · decide
  · decide
  · decide
  · decide
  · decide
  · show ('9' : Char) ∈ isoAllowedChars
    decide

theorem pad2_subset (n : Nat) : ∀ c ∈ pad2 n, c ∈ isoAllowedChars := by
  intro c hc
  simp only [pad2, List.mem_cons, List.not_mem_nil, or_false] at hc
  rcases hc with rfl | rfl <;> exact digitChar_mem _

theorem pad4_subset (n : Nat) : ∀ c ∈ pad4 n, c ∈ isoAllowedChars := by
  intro c hc
  simp only [pad4, List.mem_cons, List.not_mem_nil, or_false] at hc
  rcases hc with rfl | rfl | rfl | rfl <;> exact digitChar_mem _

theorem data_mk (l : List Char) : (String.mk l).data = l := rfl

theorem isoformat_subset (d : DateTime) :
    ∀ c ∈ (DateTime.isoformat d).data, c ∈ isoAllowedChars := by
  intro c hc
  simp only [DateTime.isoformat, data_mk, List.mem_append, List.mem_cons] at hc
  rcases hc with ((((h | rfl | h) | rfl | h) | rfl | h) | rfl | h) | rfl | h
  · exact pad4_subset _ _ h
  · decide
  · exact pad2_subset _ _ h
  · decide
  · exact pad2_subset _ _ h
  · decide
  · exact pad2_subset _ _ h
  · decide
  · exact pad2_subset _ _ h
  · decide
  · exact pad2_subset _ _ h

/-- Claim C8: `Message.serialize` copies `attachments` verbatim (so `null`,
the empty list and a populated list round-trip exactly, order preserved), and
renders `timestamp` via the naive `isoformat`, whose characters are digits,
`-`, `:` and `T` only — in particular no `Z` and no `+`, hence no timezone
offset designator. -/
theorem serialize_round_trip (m : Message) :
    (Message.serialize m).attachments = m.attachments ∧
    (Message.serialize m).timestamp = m.timestamp.isoformat ∧
    (∀ c ∈ ((Message.serialize m).timestamp).data, c ∈ isoAllowedChars) ∧
    'Z' ∉ ((Message.serialize m).timestamp).data ∧
    '+' ∉ ((Message.serialize m).timestamp).data := by
  refine ⟨rfl, rfl, isoformat_subset m.timestamp, fun h => ?_, fun h => ?_⟩
  · exact absurd (isoformat_subset m.timestamp 'Z' h) (by decide)
  · exact absurd (isoformat_subset m.timestamp '+' h) (by decide)

theorem serialize_round_trip_witness :
    (Message.serialize exMsg).attachments = some ["u1", "u2"] ∧
    'Z' ∉ ((Message.serialize exMsg).timestamp).data :=
  ⟨((serialize_round_trip exMsg).1).trans rfl, (serialize_round_trip exMsg).2.2.2.1⟩

/-- Claim C9: the conversation detail endpoint leaves the store untouched,
answers `404 Not Found` exactly when no stored conversation has the requested
id, and otherwise returns the found conversation's serialized message sequence
alone — the `messages` field of the wrapped serialization, without the
conversation wrapper. -/
theorem conversation_detail_not_found_iff (s : Store) (cid : Nat) :
    (ConversationDetailView.get s cid).2 = s ∧
    ((ConversationDetailView.get s cid).1 = DetailResponse.notFound ↔
      ∀ c ∈ s.conversations, c.id ≠ cid) ∧
    (∀ c, s.conversations.find? (fun x => x.id == cid) = some c →
      (ConversationDetailView.get s cid).1 =
        DetailResponse.ok ((Conversation.serialize s c).messages)) := by
  refine ⟨?_, ⟨?_, ?_⟩, ?_⟩
  · cases hf : s.conversations.find? (fun x => x.id == cid) with
    | none => simp [ConversationDetailView.get, hf]
    | some c => simp [ConversationDetailView.get, hf]
  · intro h c hc
    cases hf : s.conversations.find? (fun x => x.id == cid) with
    | none =>
      rw [List.find?_eq_none] at hf
      simpa using hf c hc
    | some c' => simp [ConversationDetailView.get, hf] at h
  · intro h
    cases hf : s.conversations.find? (fun x => x.id == cid) with
    | none => simp [ConversationDetailView.get, hf]
    | some c =>
      exfalso
      have hid : c.id = cid := by simpa using List.find?_some hf
      exact h c (List.mem_of_find?_eq_some hf) hid
  · intro c hf
    simp [ConversationDetailView.get, Conversation.serialize, hf]

theorem conversation_detail_not_found_iff_witness :
    (ConversationDetailView.get exStoreMsgs 9999).1 = DetailResponse.notFound ∧
    (ConversationDetailView.get exStoreMsgs 1).1 =
      DetailResponse.ok ((Conversation.serialize exStoreMsgs exConvo).messages) :=
  ⟨(conversation_detail_not_found_iff exStoreMsgs 9999).2.1.mpr (by decide),
   (conversation_detail_not_found_iff exStoreMsgs 1).2.2 exConvo (by decide)⟩

/-- Claim C10: `_get_request_data` sets the stored `msg_type` to the request
body's `type` field whenever that key is present — any string at all, with no
validation against the email/sms/mms set, overriding the URL path's type — and
falls back to the URL path's type only when the body omits `type`; every
message either path persists therefore carries `body.type.getD urlType`. -/
theorem msg_type_body_overrides_url (u : String) (b : RequestBody) :
    (BaseMessageView.get_request_data b u).msg_type = b.type.getD u ∧
    (∀ t, b.type = some t → (BaseMessageView.get_request_data b u).msg_type = t) ∧
    (b.type = none → (BaseMessageView.get_request_data b u).msg_type = u) ∧
    (∀ s pid m s2, ingest s (BaseMessageView.get_request_data b u) pid = IngestOutcome.ok m s2 →
      m.msg_type = b.type.getD u) := by
  refine ⟨rfl, ?_, ?_, ?_⟩
  · intro t ht
    simp [BaseMessageView.get_request_data, ht]
  · intro ht
    simp [BaseMessageView.get_request_data, ht]
  · intro s pid m s2 hOk
    exact (ingest_ok_facts _ _ _ _ _ hOk).2.2.2.1

/-- A request body whose `type` field is not one of email/sms/mms. -/
def exWeirdBody : RequestBody :=
  { type := some "pigeon", from_address := some "a", to_address := some "b", body := some "hi",
    attachments := none, timestamp := some ⟨2024, 11, 1, 14, 0, 0⟩,
    messaging_provider_id := none, xillio_id := none }

/-- The message `exWeirdBody` creates in `exStore`: the unvalidated body type is stored. -/
def exWeirdMsg : Message :=
  { id := 1, conversation_id := 1, msg_type := "pigeon", from_address := "a", to_address := "b",
    body := "hi", attachments := none, timestamp := ⟨2024, 11, 1, 14, 0, 0⟩,
    messaging_provider_id := none }

/-- The store after ingesting `exWeirdBody` into `exStore`. -/
def exWeirdStore2 : Store :=
  { conversations := [{ id := 1, participant_a := "a", participant_b := "b" }],
    messages := [exWeirdMsg], nextConversationId := 2, nextMessageId := 2 }

theorem msg_type_body_overrides_url_witness :
    (BaseMessageView.get_request_data exWeirdBody "sms").msg_type = "pigeon" ∧
    exWeirdMsg.msg_type = exWeirdBody.type.getD "sms" :=
  ⟨(msg_type_body_overrides_url "sms" exWeirdBody).2.1 "pigeon" rfl,
   (msg_type_body_overrides_url "sms" exWeirdBody).2.2.2 exStore none exWeirdMsg exWeirdStore2
     (by decide)⟩

end Api
